import Mathlib

/-!
Shallow embedding of src/profitcalc.py, an e-commerce single-unit profit
calculator.  All monetary quantities are modelled as rationals; decimal
literals such as 0.029 denote the exact rational 29/1000.
-/

namespace ProfitCalc

/-- Mirrors the calculation_mode radio choice in the script. -/
inductive Mode
  | CPA
  | ROAS
deriving DecidableEq

/-- Mirrors calculate_shopify_fees: fees for a single transaction. -/
def calculate_shopify_fees (product_price : ℚ) : ℚ :=
  0.029 * product_price + 0.30

/-- The record returned by calculate_breakeven_metrics. -/
structure BreakevenMetrics where
  breakeven_cpa : ℚ
  breakeven_roas : ℚ
deriving DecidableEq

/-- Mirrors calculate_breakeven_metrics: given product price p, COGS c and
Shopify fees, returns breakeven CPA and breakeven ROAS. -/
def calculate_breakeven_metrics (p c fees : ℚ) : BreakevenMetrics :=
  let ad_spend_breakeven := p - c - fees
  let breakeven_cpa := ad_spend_breakeven
  let breakeven_roas := if ad_spend_breakeven ≠ 0 then p / ad_spend_breakeven else 0
  ⟨breakeven_cpa, breakeven_roas⟩

/-- The output record of one run of the script body. -/
structure CalcResult where
  shopifyFees : ℚ
  adSpend : ℚ
  cpa : ℚ
  roas : ℚ
  profit : ℚ
  breakevenCpa : ℚ
  breakevenRoas : ℚ
deriving DecidableEq

/-- Mode-specific logic of the script (section 3 of the file): resolves
ad_spend, final_cpa and final_roas from the mode and the mode value. -/
def resolve_mode (mode : Mode) (mode_value product_price : ℚ) : ℚ × ℚ × ℚ :=
  match mode with
  | Mode.CPA =>
      let desired_cpa := mode_value
      let ad_spend := desired_cpa
      let final_roas := if ad_spend > 0 then product_price / ad_spend else 0
      (ad_spend, desired_cpa, final_roas)
  | Mode.ROAS =>
      let desired_roas := mode_value
      if desired_roas > 0 then
        let ad_spend := product_price / desired_roas
        (ad_spend, ad_spend, desired_roas)
      else
        (0, 0, 0)

/-- The whole calculation pipeline of the script: fees, breakeven metrics,
mode resolution and profit, packaged as one output record. -/
def calculate (product_price cogs : ℚ) (mode : Mode) (mode_value : ℚ) : CalcResult :=
  let shopify_fees := calculate_shopify_fees product_price
  let breakeven_data := calculate_breakeven_metrics product_price cogs shopify_fees
  let r := resolve_mode mode mode_value product_price
  let ad_spend := r.1
  let final_cpa := r.2.1
  let final_roas := r.2.2
  let profit := product_price - cogs - shopify_fees - ad_spend
  { shopifyFees := shopify_fees
    adSpend := ad_spend
    cpa := final_cpa
    roas := final_roas
    profit := profit
    breakevenCpa := breakeven_data.breakeven_cpa
    breakevenRoas := breakeven_data.breakeven_roas }

/-- The list of magnitudes the script feeds to the chart renderer
(line: values = [cogs, shopify_fees, ad_spend, profit]). -/
def chart_values (product_price cogs : ℚ) (mode : Mode) (mode_value : ℚ) : List ℚ :=
  let r := calculate product_price cogs mode mode_value
  [cogs, r.shopifyFees, r.adSpend, r.profit]

/-- Division that signals failure on a zero denominator, modelling the
Python runtime raising ZeroDivisionError when a division is reached with
denominator zero. -/
def checked_div (a b : ℚ) : Option ℚ :=
  if b = 0 then none else some (a / b)

/-- The pipeline with every division site replaced by checked_div, each
under exactly the guard the script places around it.  Returns none when
some division would have been reached with a zero denominator. -/
def calculateE (product_price cogs : ℚ) (mode : Mode) (mode_value : ℚ) :
    Option CalcResult := do
  let shopify_fees := calculate_shopify_fees product_price
  let ad_spend_breakeven := product_price - cogs - shopify_fees
  let breakeven_roas ←
    if ad_spend_breakeven ≠ 0 then checked_div product_price ad_spend_breakeven
    else pure 0
  let r ←
    match mode with
    | Mode.CPA =>
        if mode_value > 0 then do
          let q ← checked_div product_price mode_value
          pure (mode_value, mode_value, q)
        else
          pure (mode_value, mode_value, (0 : ℚ))
    | Mode.ROAS =>
        if mode_value > 0 then do
          let a ← checked_div product_price mode_value
          pure (a, a, mode_value)
        else
          pure ((0 : ℚ), (0 : ℚ), (0 : ℚ))
  let ad_spend := r.1
  let profit := product_price - cogs - shopify_fees - ad_spend
  pure
    { shopifyFees := shopify_fees
      adSpend := ad_spend
      cpa := r.2.1
      roas := r.2.2
      profit := profit
      breakevenCpa := ad_spend_breakeven
      breakevenRoas := breakeven_roas }

end ProfitCalc

namespace ProfitCalc

/-- C1: for every input (productPrice, cogs, mode, modeValue), the produced
record satisfies profit = productPrice - cogs - shopifyFees - adSpend
exactly, with shopifyFees and adSpend the values of the same record. -/
theorem profit_identity (p c v : ℚ) (m : Mode) :
    (calculate p c m v).profit =
      p - c - (calculate p c m v).shopifyFees - (calculate p c m v).adSpend := by
  cases m <;> rfl

/-- C2: in CPA mode, adSpend = modeValue and cpa = modeValue, and
roas = productPrice / adSpend when adSpend > 0 and 0 otherwise. -/
theorem cpa_mode_spec (p c v : ℚ) :
    (calculate p c Mode.CPA v).adSpend = v ∧
    (calculate p c Mode.CPA v).cpa = v ∧
    (calculate p c Mode.CPA v).roas = (if v > 0 then p / v else 0) := by
  refine ⟨rfl, rfl, rfl⟩

/-- C3: in ROAS mode, if modeValue > 0 then adSpend = productPrice/modeValue,
cpa = adSpend and roas = modeValue; if modeValue <= 0 then
adSpend = cpa = roas = 0, as an explicit degenerate policy. -/
theorem roas_mode_spec (p c v : ℚ) :
    (calculate p c Mode.ROAS v).adSpend = (if v > 0 then p / v else 0) ∧
    (calculate p c Mode.ROAS v).cpa = (if v > 0 then p / v else 0) ∧
    (calculate p c Mode.ROAS v).roas = (if v > 0 then v else 0) := by
  simp only [calculate, resolve_mode]
  split_ifs <;> exact ⟨rfl, rfl, rfl⟩

/-- C4: for productPrice >= 0, calculate_shopify_fees returns exactly
0.029 * productPrice + 0.30, and the function is strictly increasing. -/
theorem shopify_fees_formula_mono (p q : ℚ) (hp : 0 ≤ p) (hpq : p < q) :
    calculate_shopify_fees p = 0.029 * p + 0.30 ∧
    calculate_shopify_fees p < calculate_shopify_fees q := by
  refine ⟨rfl, ?_⟩
  unfold calculate_shopify_fees
  have h29 : (0 : ℚ) < 0.029 := by norm_num
  nlinarith [mul_lt_mul_of_pos_left hpq h29]

/-- Witness for C4 at p = 10, q = 20. -/
theorem shopify_fees_formula_mono_witness :
    calculate_shopify_fees 10 = 0.029 * 10 + 0.30 ∧
    calculate_shopify_fees 10 < calculate_shopify_fees 20 :=
  shopify_fees_formula_mono 10 20 (by norm_num) (by norm_num)

/-- C5: calculate_breakeven_metrics returns
breakeven_cpa = productPrice - cogs - shopifyFees with no clamping, and
breakeven_roas = productPrice / breakeven_cpa when that quantity is nonzero
and the sentinel 0 when it is zero. -/
theorem breakeven_spec (p c fees : ℚ) :
    (calculate_breakeven_metrics p c fees).breakeven_cpa = p - c - fees ∧
    (calculate_breakeven_metrics p c fees).breakeven_roas =
      (if p - c - fees ≠ 0 then p / (p - c - fees) else 0) := by
  refine ⟨rfl, rfl⟩

/-- C6 counterexample: at productPrice = -100 the program produces
shopifyFees = 0.029 * (-100) + 0.30 = -2.6 < 0.30, so shopifyFees is not
always >= 0.30 without a precondition on productPrice. -/
theorem shopify_fees_lower_bound_cex :
    (calculate (-100) 0 Mode.CPA 0).shopifyFees < 0.30 := by
  norm_num [calculate, calculate_shopify_fees]

/-- C6 amended: for every input with productPrice >= 0, the produced
shopifyFees equals 0.029 * productPrice + 0.30 and is >= 0.30. -/
theorem shopify_fees_lower_bound (p c v : ℚ) (m : Mode) (hp : 0 ≤ p) :
    (calculate p c m v).shopifyFees = 0.029 * p + 0.30 ∧
    0.30 ≤ (calculate p c m v).shopifyFees := by
  have hfees : (calculate p c m v).shopifyFees = 0.029 * p + 0.30 := by
    cases m <;> rfl
  refine ⟨hfees, ?_⟩
  rw [hfees]
  nlinarith [mul_nonneg (show (0 : ℚ) ≤ 0.029 by norm_num) hp]

/-- Witness for C6 amended at productPrice = 0. -/
theorem shopify_fees_lower_bound_witness :
    (calculate 0 0 Mode.CPA 0).shopifyFees = 0.029 * 0 + 0.30 ∧
    0.30 ≤ (calculate 0 0 Mode.CPA 0).shopifyFees :=
  shopify_fees_lower_bound 0 0 0 Mode.CPA (by norm_num)

/-- C7: setting adSpend equal to the breakeven_cpa returned by
calculate_breakeven_metrics makes productPrice - cogs - shopifyFees - adSpend
evaluate to exactly zero. -/
theorem breakeven_cpa_zero_profit (p c fees : ℚ) :
    p - c - fees - (calculate_breakeven_metrics p c fees).breakeven_cpa = 0 := by
  simp [calculate_breakeven_metrics]

/-- C8: with every division site replaced by one that fails on a zero
denominator, the pipeline still always succeeds and yields the same record:
every division in the script is guarded, so the pipeline is total. -/
theorem calculateE_total (p c v : ℚ) (m : Mode) :
    calculateE p c m v = some (calculate p c m v) := by
  cases m <;>
    (simp only [calculateE, calculate, resolve_mode, calculate_breakeven_metrics,
        checked_div]
     split_ifs <;> simp_all)

/-- C9 counterexample: at productPrice = 0, cogs = 0, CPA mode with
modeValue = 0, the list fed to the chart contains the strictly negative
value -0.30 (the profit), so the chart values are not clamped to >= 0. -/
theorem chart_negative_value_cex :
    chart_values 0 0 Mode.CPA 0 = [0, 0.30, 0, -0.30] ∧ (-0.30 : ℚ) < 0 := by
  constructor
  · norm_num [chart_values, calculate, resolve_mode, calculate_breakeven_metrics,
      calculate_shopify_fees]
  · norm_num

/-- C9 amended: the four labeled magnitudes are fed to the chart renderer
unclamped, exactly as [cogs, shopifyFees, adSpend, profit] of the produced
record, so negative values (for example a negative profit) reach the chart. -/
theorem chart_values_unclamped (p c v : ℚ) (m : Mode) :
    chart_values p c m v =
      [c, (calculate p c m v).shopifyFees, (calculate p c m v).adSpend,
        (calculate p c m v).profit] := rfl

/-- C10: in both modes, whenever the resulting adSpend is strictly positive,
the produced record satisfies cpa * roas = productPrice exactly. -/
theorem cpa_roas_product (p c v : ℚ) (m : Mode)
    (h : 0 < (calculate p c m v).adSpend) :
    (calculate p c m v).cpa * (calculate p c m v).roas = p := by
  cases m
  case CPA =>
    have hv : 0 < v := by simpa [calculate, resolve_mode] using h
    simp only [calculate, resolve_mode, if_pos hv]
    rw [mul_comm]
    exact div_mul_cancel₀ p hv.ne'
  case ROAS =>
    by_cases hv : v > 0
    · simp only [calculate, resolve_mode, if_pos hv]
      exact div_mul_cancel₀ p hv.ne'
    · simp only [calculate, resolve_mode, if_neg hv] at h
      exact absurd h (lt_irrefl 0)

/-- Witness for C10: CPA mode with productPrice = 10, modeValue = 2 has
adSpend = 2 > 0 and cpa * roas = 2 * 5 = 10 = productPrice. -/
theorem cpa_roas_product_witness :
    (calculate 10 3 Mode.CPA 2).cpa * (calculate 10 3 Mode.CPA 2).roas = 10 :=
  cpa_roas_product 10 3 2 Mode.CPA (by norm_num [calculate, resolve_mode])

end ProfitCalc
